import Mathlib

/-!
Shallow embedding of `src/static/script.js` of CineMatch_AI: the browser UI
controller for the movie-recommendation page.  DOM state (panel display
styles, grid contents, alerts, issued network requests) is modelled as
explicit records; the event handlers become pure state-transition functions;
a `fetch` that may fail or whose body may fail to parse is modelled by an
explicit result datatype.  JavaScript truthiness of the optional JSON fields
is modelled by explicit `Bool`-valued truthiness functions, and JavaScript
string interpolation of a possibly-`undefined` value by `jsStr` / `jsIntStr`.
-/

namespace CineMatch

/-- A movie object as delivered by the recommendation service (spec §3).
Numeric JSON fields are modelled as integers; absent fields as `none`. -/
structure Movie where
  title : String
  overview : Option String := none
  genres : Option String := none
  languages : Option String := none
  year : Option Int := none
  rating : Option Int := none
  poster_url : Option String := none
  similarity : Option Int := none
deriving DecidableEq, Repr

/-- JavaScript `String.prototype.trim`: strip leading and trailing whitespace
(written over the character list so that it evaluates inside the kernel). -/
def jsTrim (s : String) : String :=
  ⟨((s.data.dropWhile Char.isWhitespace).reverse.dropWhile Char.isWhitespace).reverse⟩

/-- One step of JavaScript `String.prototype.split(sep)` for a one-character
separator, over character lists: `"a b".split(' ') = ["a","b"]`,
`"".split(' ') = [""]`, `" x".split(' ') = ["","x"]`. -/
def splitOnChar (sep : Char) : List Char → List (List Char)
  | [] => [[]]
  | c :: rest =>
    if c = sep then [] :: splitOnChar sep rest
    else
      match splitOnChar sep rest with
      | [] => [[c]]
      | h :: t => (c :: h) :: t

/-- JavaScript `s.split(' ')`. -/
def jsSplitSpace (s : String) : List String :=
  (splitOnChar ' ' s.data).map (fun l => ⟨l⟩)

/-- JavaScript truthiness of an optional string (`undefined` and `""` are falsy). -/
def strTruthy : Option String → Bool
  | none => false
  | some s => s != ""

/-- JavaScript truthiness of an optional number (`undefined` and `0` are falsy). -/
def intTruthy : Option Int → Bool
  | none => false
  | some n => n != 0

/-- JavaScript string interpolation of a possibly-`undefined` string value. -/
def jsStr : Option String → String
  | none => "undefined"
  | some s => s

/-- JavaScript string interpolation of a possibly-`undefined` number value. -/
def jsIntStr : Option Int → String
  | none => "undefined"
  | some n => toString n

/-- `movie.genres ? movie.genres.split(' ').slice(0, 2) : []`. -/
def genreList (movie : Movie) : List String :=
  if strTruthy movie.genres then (jsSplitSpace (jsStr movie.genres)).take 2 else []

/-- `genres.map(g => ...genre-tag...).join('')`. -/
def genreTags (movie : Movie) : String :=
  String.join ((genreList movie).map
    (fun g => "<span class=\"genre-tag\">" ++ g ++ "</span>"))

/-- `movie.languages ? movie.languages.split(' ').join('/') : ''`. -/
def langList (movie : Movie) : String :=
  if strTruthy movie.languages then
    String.intercalate "/" (jsSplitSpace (jsStr movie.languages))
  else ""

/-- The condition `movie.poster_url && movie.poster_url.trim()`. -/
def posterCond (movie : Movie) : Bool :=
  strTruthy movie.poster_url && jsTrim (jsStr movie.poster_url) != ""

/-- The `posterHtml` template expression of `createCard`. -/
def posterHtml (movie : Movie) : String :=
  if posterCond movie then
    "<img src=\"" ++ jsStr movie.poster_url ++ "\" alt=\"" ++ movie.title ++
      "\" onerror=\"this.style.display=\'none\'; this.nextElementSibling.style.display=\'flex\'\">\n         <div class=\"card-placeholder\" style=\"display:none;\">" ++
      movie.title ++ "</div>"
  else
    "<div class=\"card-placeholder\">" ++ movie.title ++ "</div>"

/-- `${(movie.overview || '').substring(0, 100)}...`. -/
def overviewExcerpt (movie : Movie) : String :=
  (if strTruthy movie.overview then jsStr movie.overview else "").take 100 ++ "..."

/-- The year metadata badge: `${movie.year ? `<span ...fa-calendar... ${movie.year}</span>` : ''}`. -/
def yearBadge (movie : Movie) : String :=
  if intTruthy movie.year then
    "<span class=\"badge\"><i class=\"fas fa-calendar\"></i> " ++
      jsIntStr movie.year ++ "</span>"
  else ""

/-- The rating metadata badge: `${movie.rating ? `<span ...fa-star... ${movie.rating}</span>` : ''}`. -/
def ratingBadge (movie : Movie) : String :=
  if intTruthy movie.rating then
    "<span class=\"badge\"><i class=\"fas fa-star\"></i> " ++
      jsIntStr movie.rating ++ "</span>"
  else ""

/-- The JavaScript comparison `movie.similarity > 0` (`undefined > 0` is `false`). -/
def similarityGtZero (movie : Movie) : Bool :=
  match movie.similarity with
  | none => false
  | some s => decide (0 < s)

/-- The similarity metadata badge: `${movie.similarity > 0 ? `<span ...fa-bolt... ${movie.similarity}%</span>` : ''}`. -/
def similarityBadge (movie : Movie) : String :=
  if similarityGtZero movie then
    "<span class=\"badge\"><i class=\"fas fa-bolt\"></i> " ++
      jsIntStr movie.similarity ++ "%</span>"
  else ""

/-- The contents of the `card-meta` div of the card overlay: the three
conditional metadata badges separated by the template's whitespace. -/
def cardMeta (movie : Movie) : String :=
  yearBadge movie ++ "\n                        " ++ ratingBadge movie ++
    "\n                        " ++ similarityBadge movie

/-- `${movie.genres ? movie.genres.split(' ')[0] : 'N/A'}` in the card footer. -/
def footerGenre (movie : Movie) : String :=
  if strTruthy movie.genres then (jsSplitSpace (jsStr movie.genres)).headD "" else "N/A"

/-- `${movie.similarity ? `<p class="card-match">Match: ${movie.similarity}%</p>` : ''}`. -/
def matchLine (movie : Movie) : String :=
  if intTruthy movie.similarity then
    "<p class=\"card-match\">Match: " ++ jsIntStr movie.similarity ++ "%</p>"
  else ""

/-- `${langList ? `<p class="card-languages"><strong>Available In:</strong> ${langList}</p>` : ''}`. -/
def langLine (movie : Movie) : String :=
  if langList movie != "" then
    "<p class=\"card-languages\"><strong>Available In:</strong> " ++
      langList movie ++ "</p>"
  else ""

/-- The `card.innerHTML` template literal of `createCard`, assembled from the
pieces above exactly in source order. -/
def cardInnerHTML (movie : Movie) : String :=
  "\n        <div class=\"card-poster\">\n            " ++ posterHtml movie ++
    "\n            <div class=\"card-overlay\">\n                <div class=\"card-info\">\n                    <h3>" ++
    movie.title ++
    "</h3>\n                    <p>" ++ overviewExcerpt movie ++
    "</p>\n                    <div class=\"card-meta\">\n                        " ++
    cardMeta movie ++
    "\n                    </div>\n                    <div class=\"card-genres\">" ++
    genreTags movie ++
    "</div>\n                </div>\n            </div>\n        </div>\n        <div class=\"card-content\">\n            <h4 class=\"card-title\">" ++
    movie.title ++
    "</h4>\n            <div class=\"card-meta\">\n                 <span class=\"badge\"><strong>" ++
    footerGenre movie ++
    "</strong></span>\n                 <span class=\"card-rating\">⭐ " ++
    jsIntStr movie.rating ++
    "/10</span>\n                 <span class=\"card-rating\">⭐ " ++
    jsIntStr movie.rating ++
    "/10</span>\n            </div>\n            " ++
    matchLine movie ++ "\n            " ++ langLine movie ++
    "\n        </div>\n    "

/-- A rendered card: `createCard` returns a `div` whose class is `card`, whose
`innerHTML` is the template above, and whose click handler opens the modal on
the given movie. -/
structure Card where
  className : String
  innerHTML : String
  onclickMovie : Movie
deriving DecidableEq, Repr

/-- `createCard(movie)` from the source. -/
def createCard (movie : Movie) : Card :=
  { className := "card"
    innerHTML := cardInnerHTML movie
    onclickMovie := movie }

/-- The JSON body the submit handler sends to `POST /recommend`. -/
structure RecommendRequest where
  movies : List String
  genres : List String
  languages : List String
  keyword : String
deriving DecidableEq, Repr

/-- A `/recommend` response body.  An absent `recommendations` field and an
empty list behave identically in the handler (`data.recommendations &&
data.recommendations.length > 0`), so both are modelled as `[]`. -/
structure RecommendResponse where
  not_found : Bool
  suggestions : List Movie
  recommendations : List Movie
deriving DecidableEq, Repr

/-- Outcome of the `fetch('/recommend')` + `response.json()` pair: either a
parsed body, or a rejection (network error or JSON parse error), which lands
in the `catch` block. -/
inductive FetchResult where
  | success (data : RecommendResponse)
  | failure
deriving DecidableEq, Repr

/-- The page state the submit handler touches: the inline `display` style of
the loading / not-found / results panels, the featured section (`none` when
the `featuredSection` element is absent, since the source nil-checks it), the
two card grids, the results title, and logs of alerts shown and requests
issued. -/
structure PageState where
  loadingDisplay : String
  notFoundDisplay : String
  resultsDisplay : String
  featuredDisplay : Option String
  suggestionsGrid : List Card
  resultsGrid : List Card
  resultsTitle : String
  alerts : List String
  requests : List RecommendRequest
deriving DecidableEq, Repr

/-- The three form field values read at the top of the submit handler. -/
structure SubmitInput where
  movieInputValue : String
  genreValue : String
  languageValue : String
deriving DecidableEq, Repr

/-- Lines 25–28: enter the loading state, hiding the three result panels
(`featuredSection` only if the element exists). -/
def enterLoading (st : PageState) : PageState :=
  { st with
    loadingDisplay := "flex"
    notFoundDisplay := "none"
    resultsDisplay := "none"
    featuredDisplay := st.featuredDisplay.map (fun _ => "none") }

/-- Lines 34–39: the request body
`{movies: [movieName], genres: genre ? [genre] : [], languages: language ? [language] : [], keyword: ''}`. -/
def buildRequest (movieName genre language : String) : RecommendRequest :=
  { movies := [movieName]
    genres := if genre != "" then [genre] else []
    languages := if language != "" then [language] else []
    keyword := "" }

/-- Lines 52–54: the results title
``Movies similar to "<name>"`` with the conditional genre and language suffixes. -/
def buildTitle (movieName genre language : String) : String :=
  let t := "Movies similar to \"" ++ movieName ++ "\""
  let t := if genre != "" then t ++ " in " ++ genre else t
  if language != "" then t ++ " (" ++ language ++ ")" else t

/-- Lines 44–65 (`try` body after the await) and line 67–68 (`catch`):
dispatch on the parsed response. -/
def handleResponse (movieName genre language : String) (st : PageState) :
    FetchResult → PageState
  | FetchResult.success data =>
    if data.not_found then
      { st with
        suggestionsGrid := data.suggestions.map createCard
        notFoundDisplay := "block" }
    else if 0 < data.recommendations.length then
      { st with
        resultsTitle := buildTitle movieName genre language
        resultsGrid := data.recommendations.map createCard
        resultsDisplay := "block" }
    else
      { st with alerts := st.alerts ++ ["No recommendations found"] }
  | FetchResult.failure =>
    { st with alerts := st.alerts ++ ["Failed to get recommendations"] }

/-- Line 70 (`finally`): hide the loading spinner. -/
def finishLoading (st : PageState) : PageState :=
  { st with loadingDisplay := "none" }

/-- The whole form submit handler (lines 13–72) as a state transition: read
and trim the movie name, alert and return on an empty name, otherwise enter
the loading state, issue the request, dispatch on its outcome, and always
clear the loading spinner at the end. -/
def submitHandler (st : PageState) (inp : SubmitInput) (r : FetchResult) :
    PageState :=
  let movieName := jsTrim inp.movieInputValue
  let genre := inp.genreValue
  let language := inp.languageValue
  if movieName = "" then
    { st with alerts := st.alerts ++ ["Please enter a movie name"] }
  else
    let st1 := enterLoading st
    let st2 := { st1 with
      requests := st1.requests ++ [buildRequest movieName genre language] }
    finishLoading (handleResponse movieName genre language st2 r)

/-- The JSON body `toggleFav` sends to `POST /api/favorites`. -/
structure FavoriteToggleRequest where
  action : String
  movie_id : Int
  movie_title : String
  overview : String
  genres : String
  year : Int
  rating : Int
  poster_url : String
deriving DecidableEq, Repr

/-- A `/api/favorites` response body. -/
structure FavResponse where
  success : Bool
deriving DecidableEq, Repr

/-- Outcome of the favorites fetch + JSON parse. -/
inductive FavFetchResult where
  | success (data : FavResponse)
  | failure
deriving DecidableEq, Repr

/-- The state `toggleFav` touches: the favorite button's class list, the
issued requests, the console error log, the alerts shown, and whether the
click event's propagation was stopped. -/
structure FavState where
  btnClasses : List String
  requests : List FavoriteToggleRequest
  consoleErrorCount : Nat
  alerts : List String
  propagationStopped : Bool
deriving DecidableEq, Repr

/-- `DOMTokenList.toggle`: remove the token if present, else append it (a
class list never holds duplicates, so removal drops every occurrence). -/
def classListToggle (classes : List String) (c : String) : List String :=
  if classes.contains c then classes.filter (fun x => x != c)
  else classes ++ [c]

/-- `toggleFav` (lines 120–147) as a state transition. -/
def toggleFav (st : FavState) (movieId : Int)
    (title overview genres : String) (year rating : Int) (poster : String)
    (r : FavFetchResult) : FavState :=
  let st := { st with propagationStopped := true }
  let st := { st with requests := st.requests ++
    [{ action := "toggle", movie_id := movieId, movie_title := title,
       overview := overview, genres := genres, year := year,
       rating := rating, poster_url := poster }] }
  match r with
  | FavFetchResult.success data =>
    if data.success then
      { st with btnClasses := classListToggle st.btnClasses "favorited" }
    else st
  | FavFetchResult.failure =>
    { st with consoleErrorCount := st.consoleErrorCount + 1 }

/-- `${movie.rating || 'N/A'}` in the modal. -/
def modalRatingText (movie : Movie) : String :=
  if intTruthy movie.rating then jsIntStr movie.rating else "N/A"

/-- `${movie.year || 'N/A'}` in the modal. -/
def modalYearText (movie : Movie) : String :=
  if intTruthy movie.year then jsIntStr movie.year else "N/A"

/-- `${movie.languages || 'N/A'}` in the modal. -/
def modalLanguagesText (movie : Movie) : String :=
  if strTruthy movie.languages then jsStr movie.languages else "N/A"

/-- `${movie.genres || 'N/A'}` in the modal. -/
def modalGenresText (movie : Movie) : String :=
  if strTruthy movie.genres then jsStr movie.genres else "N/A"

/-- `${movie.overview || 'No overview available.'}` in the modal. -/
def modalOverviewText (movie : Movie) : String :=
  if strTruthy movie.overview then jsStr movie.overview else "No overview available."

/-- `src="${movie.poster_url}"`: the poster URL is interpolated with no
fallback, so an absent value renders the literal text `undefined`. -/
def modalPosterSrc (movie : Movie) : String :=
  jsStr movie.poster_url

/-- The `<h2>` title line of the modal. -/
def modalTitleLine (movie : Movie) : String :=
  "<h2>" ++ movie.title ++ "</h2>"

/-- The rating paragraph of the modal. -/
def modalRatingLine (movie : Movie) : String :=
  "<p><strong>Rating:</strong> ⭐ " ++ modalRatingText movie ++ "/10</p>"

/-- The year paragraph of the modal. -/
def modalYearLine (movie : Movie) : String :=
  "<p><strong>Year:</strong> " ++ modalYearText movie ++ "</p>"

/-- The languages paragraph of the modal. -/
def modalLanguagesLine (movie : Movie) : String :=
  "<p><strong>Languages:</strong> " ++ modalLanguagesText movie ++ "</p>"

/-- The genres paragraph of the modal. -/
def modalGenresLine (movie : Movie) : String :=
  "<p><strong>Genres:</strong> " ++ modalGenresText movie ++ "</p>"

/-- The plot paragraph of the modal. -/
def modalPlotLine (movie : Movie) : String :=
  "<p><strong>Plot:</strong> " ++ modalOverviewText movie ++ "</p>"

/-- The `modalGallery.innerHTML` template of `openModal` (lines 153–165),
assembled from the lines above exactly in source order. -/
def modalGalleryHTML (movie : Movie) : String :=
  "\n        <div class=\"gallery-wrapper\">\n            <img " ++
    ("src=\"" ++ modalPosterSrc movie ++ "\"") ++
    " alt=\"" ++ movie.title ++
    "\" class=\"gallery-img\">\n            <div class=\"gallery-info\">\n                " ++
    modalTitleLine movie ++ "\n                " ++
    modalRatingLine movie ++ "\n                " ++
    modalYearLine movie ++ "\n                " ++
    modalLanguagesLine movie ++ "\n                " ++
    modalGenresLine movie ++ "\n                " ++
    modalPlotLine movie ++
    "\n            </div>\n        </div>\n    "

/-- The modal's state: its gallery contents and its `display` style. -/
structure ModalState where
  galleryHTML : String
  modalDisplay : String
deriving DecidableEq, Repr

/-- `openModal(movie)`: replace the gallery contents and show the modal. -/
def openModal (movie : Movie) : ModalState :=
  { galleryHTML := modalGalleryHTML movie
    modalDisplay := "flex" }

/-- `closeModal()`: hide the modal. -/
def closeModal (st : ModalState) : ModalState :=
  { st with modalDisplay := "none" }

/-- `DOMTokenList.add`: append the token if not already present. -/
def classListAdd (classes : List String) (c : String) : List String :=
  if classes.contains c then classes else classes ++ [c]

/-- `DOMTokenList.remove`: drop the token. -/
def classListRemove (classes : List String) (c : String) : List String :=
  classes.filter (fun x => x != c)

/-- The scroll listener (lines 182–188): add the `visible` class to the
back-to-top button when `window.scrollY > 300`, remove it otherwise. -/
def scrollHandler (scrollY : Nat) (classes : List String) : List String :=
  if 300 < scrollY then classListAdd classes "visible"
  else classListRemove classes "visible"

/-- Substring test on character lists: does `pat` occur contiguously? -/
def containsSub (pat : List Char) : List Char → Bool
  | [] => pat.isPrefixOf []
  | c :: rest => pat.isPrefixOf (c :: rest) || containsSub pat rest

/-- Substring test on strings, used to state "contains" properties of the
rendered HTML. -/
def strContains (s pat : String) : Bool :=
  containsSub pat.data s.data

/-- Number of visible panels among results / not-found / featured: a panel is
visible when its inline `display` is not `none` (an absent featured element is
never visible). -/
def panelsVisibleCount (st : PageState) : Nat :=
  (if st.resultsDisplay != "none" then 1 else 0) +
    (if st.notFoundDisplay != "none" then 1 else 0) +
    (match st.featuredDisplay with
     | some d => if d != "none" then 1 else 0
     | none => 0)

/-! Concrete fixtures used by witnesses and counterexamples. -/

/-- A fully populated movie. -/
def movieA : Movie :=
  { title := "Alpha"
    overview := some "A heist crew enters dreams."
    genres := some "Action Drama Comedy"
    languages := some "en fr"
    year := some 2019
    rating := some 8
    poster_url := some "http://img.example/a.jpg"
    similarity := some 42 }

/-- A movie with every optional field absent. -/
def movieB : Movie := { title := "Beta" }

/-- A movie whose `year` and `rating` are present but equal to `0`. -/
def movieZero : Movie :=
  { title := "Zero"
    overview := some "A film about nothing."
    genres := some "Drama"
    languages := some "en"
    year := some 0
    rating := some 0
    similarity := some 0 }

/-- `movieZero` with its `rating` field removed. -/
def movieZeroNoRating : Movie :=
  { movieZero with rating := none }

/-- A page state before any submission: all panels hidden except the featured
section, grids empty, no alerts, no requests. -/
def stInit : PageState :=
  { loadingDisplay := "none"
    notFoundDisplay := "none"
    resultsDisplay := "none"
    featuredDisplay := some "block"
    suggestionsGrid := []
    resultsGrid := []
    resultsTitle := ""
    alerts := []
    requests := [] }

/-- A valid submission: non-empty trimmed name, a genre, no language. -/
def inpValid : SubmitInput :=
  { movieInputValue := " Inception "
    genreValue := "Action"
    languageValue := "" }

/-- A whitespace-only submission. -/
def inpBlank : SubmitInput :=
  { movieInputValue := "   "
    genreValue := "Action"
    languageValue := "fr" }

/-- A not-found response carrying two suggestions. -/
def respNF : RecommendResponse :=
  { not_found := true
    suggestions := [movieA, movieB]
    recommendations := [] }

/-- A successful response carrying one recommendation. -/
def respRec : RecommendResponse :=
  { not_found := false
    suggestions := []
    recommendations := [movieA] }

/-- A favorite-button state with no classes and empty logs. -/
def favInit : FavState :=
  { btnClasses := ["fav-btn"]
    requests := []
    consoleErrorCount := 0
    alerts := []
    propagationStopped := false }

/-! Substring lemmas for the rendered-HTML "contains" statements. -/

/-- The empty pattern occurs in every list. -/
theorem containsSub_nil (l : List Char) : containsSub [] l = true := by
  cases l <;> simp [containsSub]

/-- Every list occurs in itself. -/
theorem containsSub_self (l : List Char) : containsSub l l = true := by
  cases l <;> simp [containsSub, List.prefix_refl]

/-- Occurrence is preserved by prepending. -/
theorem containsSub_append_left (p x y : List Char)
    (h : containsSub p y = true) : containsSub p (x ++ y) = true := by
  induction x with
  | nil => simpa using h
  | cons c x ih => simp [containsSub, ih]

/-- Occurrence is preserved by appending. -/
theorem containsSub_append_right (p x y : List Char)
    (h : containsSub p x = true) : containsSub p (x ++ y) = true := by
  induction x with
  | nil =>
    have hp : p = [] := by
      cases p with
      | nil => rfl
      | cons c q => simp [containsSub] at h
    subst hp
    exact containsSub_nil y
  | cons c x ih =>
    simp only [containsSub, Bool.or_eq_true, List.isPrefixOf_iff_prefix] at h
    rcases h with h | h
    · simp only [List.cons_append, containsSub, Bool.or_eq_true,
        List.isPrefixOf_iff_prefix]
      exact Or.inl (h.trans (List.prefix_append _ _))
    · exact List.cons_append c x y ▸ containsSub_append_left p [c] (x ++ y) (ih h)

/-- `strContains` is preserved by prepending. -/
theorem strContains_append_left (a s p : String)
    (h : strContains s p = true) : strContains (a ++ s) p = true := by
  simp only [strContains, String.data_append]
  exact containsSub_append_left _ _ _ h

/-- `strContains` is preserved by appending. -/
theorem strContains_append_right (s b p : String)
    (h : strContains s p = true) : strContains (s ++ b) p = true := by
  simp only [strContains, String.data_append]
  exact containsSub_append_right _ _ _ h

/-- A string occurs in anything of which it is the appended suffix. -/
theorem strContains_append_self (a p : String) :
    strContains (a ++ p) p = true := by
  simp only [strContains, String.data_append]
  exact containsSub_append_left _ _ _ (containsSub_self p.data)

/-! Class-list lemmas. -/

/-- `classListToggle` flips membership of the toggled token. -/
theorem mem_classListToggle (classes : List String) (c : String) :
    c ∈ classListToggle classes c ↔ c ∉ classes := by
  by_cases h : c ∈ classes <;> simp [classListToggle, h, List.mem_filter]

/-- `classListAdd` makes the added token a member. -/
theorem mem_classListAdd (classes : List String) (c : String) :
    c ∈ classListAdd classes c := by
  by_cases h : c ∈ classes <;> simp [classListAdd, h]

/-- `classListRemove` removes every occurrence of the token. -/
theorem not_mem_classListRemove (classes : List String) (c : String) :
    c ∉ classListRemove classes c := by
  simp [classListRemove, List.mem_filter]

/-! The claims. -/

/-- C4: a submission whose movie-name field is empty or whitespace-only after
trimming alerts the user and returns with no request issued and the
loading / not-found / results / featured displays unchanged. -/
theorem submit_empty_name_spec (st : PageState) (inp : SubmitInput)
    (r : FetchResult) (h : jsTrim inp.movieInputValue = "") :
    (submitHandler st inp r).requests = st.requests ∧
    (submitHandler st inp r).loadingDisplay = st.loadingDisplay ∧
    (submitHandler st inp r).notFoundDisplay = st.notFoundDisplay ∧
    (submitHandler st inp r).resultsDisplay = st.resultsDisplay ∧
    (submitHandler st inp r).featuredDisplay = st.featuredDisplay ∧
    (submitHandler st inp r).alerts = st.alerts ++ ["Please enter a movie name"] := by
  simp [submitHandler, h]

/-- C4 witness: the whitespace-only submission `"   "`. -/
theorem submit_empty_name_instance :
    jsTrim inpBlank.movieInputValue = "" ∧
    ((submitHandler stInit inpBlank FetchResult.failure).requests = stInit.requests ∧
     (submitHandler stInit inpBlank FetchResult.failure).loadingDisplay = stInit.loadingDisplay ∧
     (submitHandler stInit inpBlank FetchResult.failure).notFoundDisplay = stInit.notFoundDisplay ∧
     (submitHandler stInit inpBlank FetchResult.failure).resultsDisplay = stInit.resultsDisplay ∧
     (submitHandler stInit inpBlank FetchResult.failure).featuredDisplay = stInit.featuredDisplay ∧
     (submitHandler stInit inpBlank FetchResult.failure).alerts =
       stInit.alerts ++ ["Please enter a movie name"]) :=
  ⟨by decide, submit_empty_name_spec stInit inpBlank FetchResult.failure (by decide)⟩

/-- C5: for every valid submission the loading indicator is hidden when the
handler finishes, whatever the fetch outcome and response shape. -/
theorem submit_loading_cleared_spec (st : PageState) (inp : SubmitInput)
    (r : FetchResult) (h : jsTrim inp.movieInputValue ≠ "") :
    (submitHandler st inp r).loadingDisplay = "none" := by
  simp [submitHandler, h, finishLoading]

/-- C5 witness: a valid submission with a successful response. -/
theorem submit_loading_cleared_instance :
    jsTrim inpValid.movieInputValue ≠ "" ∧
    (submitHandler stInit inpValid (FetchResult.success respRec)).loadingDisplay = "none" :=
  ⟨by decide, submit_loading_cleared_spec stInit inpValid (FetchResult.success respRec) (by decide)⟩

/-- C1: on a truthy `not_found` response the suggestions grid is exactly the
rendered cards of the `suggestions` list (hence N cards for N suggestions),
the not-found panel is shown and the results panel stays hidden. -/
theorem submit_notFound_branch_spec (st : PageState) (inp : SubmitInput)
    (data : RecommendResponse) (hname : jsTrim inp.movieInputValue ≠ "")
    (hnf : data.not_found = true) :
    (submitHandler st inp (FetchResult.success data)).suggestionsGrid =
      data.suggestions.map createCard ∧
    (submitHandler st inp (FetchResult.success data)).suggestionsGrid.length =
      data.suggestions.length ∧
    (submitHandler st inp (FetchResult.success data)).notFoundDisplay = "block" ∧
    (submitHandler st inp (FetchResult.success data)).resultsDisplay = "none" := by
  simp [submitHandler, hname, enterLoading, finishLoading, handleResponse, hnf]

/-- C1 witness: a not-found response with two suggestions. -/
theorem submit_notFound_instance :
    jsTrim inpValid.movieInputValue ≠ "" ∧ respNF.not_found = true ∧
    ((submitHandler stInit inpValid (FetchResult.success respNF)).suggestionsGrid =
       respNF.suggestions.map createCard ∧
     (submitHandler stInit inpValid (FetchResult.success respNF)).suggestionsGrid.length =
       respNF.suggestions.length ∧
     (submitHandler stInit inpValid (FetchResult.success respNF)).notFoundDisplay = "block" ∧
     (submitHandler stInit inpValid (FetchResult.success respNF)).resultsDisplay = "none") :=
  ⟨by decide, rfl, submit_notFound_branch_spec stInit inpValid respNF (by decide) rfl⟩

/-- C2: on a well-formed response with a non-empty `recommendations` list the
results title is the quoted movie name with the genre suffix iff the submitted
genre is non-empty and the language suffix iff the submitted language is
non-empty, the results grid is repopulated with one card per recommendation,
and the results panel is shown. -/
theorem submit_recommendations_branch_spec (st : PageState) (inp : SubmitInput)
    (data : RecommendResponse) (hname : jsTrim inp.movieInputValue ≠ "")
    (hnf : data.not_found = false) (hrec : data.recommendations ≠ []) :
    (submitHandler st inp (FetchResult.success data)).resultsTitle =
      "Movies similar to \"" ++ jsTrim inp.movieInputValue ++ "\"" ++
        (if inp.genreValue ≠ "" then " in " ++ inp.genreValue else "") ++
        (if inp.languageValue ≠ "" then " (" ++ inp.languageValue ++ ")" else "") ∧
    (submitHandler st inp (FetchResult.success data)).resultsGrid =
      data.recommendations.map createCard ∧
    (submitHandler st inp (FetchResult.success data)).resultsGrid.length =
      data.recommendations.length ∧
    (submitHandler st inp (FetchResult.success data)).resultsDisplay = "block" := by
  have hlen : 0 < data.recommendations.length := List.length_pos.mpr hrec
  refine ⟨?_, ?_, ?_, ?_⟩ <;>
    simp [submitHandler, hname, enterLoading, finishLoading, handleResponse,
      hnf, hlen, buildTitle]
  by_cases hg : inp.genreValue = "" <;> by_cases hl : inp.languageValue = "" <;>
    simp [hg, hl, String.append_empty, ← String.append_assoc]

/-- C2 witness: one recommendation, genre `Action`, empty language. -/
theorem submit_recommendations_instance :
    jsTrim inpValid.movieInputValue ≠ "" ∧ respRec.not_found = false ∧
    respRec.recommendations ≠ [] ∧
    ((submitHandler stInit inpValid (FetchResult.success respRec)).resultsTitle =
       "Movies similar to \"" ++ jsTrim inpValid.movieInputValue ++ "\"" ++
         (if inpValid.genreValue ≠ "" then " in " ++ inpValid.genreValue else "") ++
         (if inpValid.languageValue ≠ "" then " (" ++ inpValid.languageValue ++ ")" else "") ∧
     (submitHandler stInit inpValid (FetchResult.success respRec)).resultsGrid =
       respRec.recommendations.map createCard ∧
     (submitHandler stInit inpValid (FetchResult.success respRec)).resultsGrid.length =
       respRec.recommendations.length ∧
     (submitHandler stInit inpValid (FetchResult.success respRec)).resultsDisplay = "block") :=
  ⟨by decide, rfl, by decide,
    submit_recommendations_branch_spec stInit inpValid respRec (by decide) rfl (by decide)⟩

/-- C10: the not-found branch leaves the results grid and results title
unchanged, and the recommendations branch leaves the suggestions grid
unchanged. -/
theorem submit_frame_effects_spec (st : PageState) (inp : SubmitInput)
    (data : RecommendResponse) (hname : jsTrim inp.movieInputValue ≠ "") :
    (data.not_found = true →
      (submitHandler st inp (FetchResult.success data)).resultsGrid = st.resultsGrid ∧
      (submitHandler st inp (FetchResult.success data)).resultsTitle = st.resultsTitle) ∧
    (data.not_found = false → data.recommendations ≠ [] →
      (submitHandler st inp (FetchResult.success data)).suggestionsGrid =
        st.suggestionsGrid) := by
  constructor
  · intro hnf
    simp [submitHandler, hname, enterLoading, finishLoading, handleResponse, hnf]
  · intro hnf hrec
    have hlen : 0 < data.recommendations.length := List.length_pos.mpr hrec
    simp [submitHandler, hname, enterLoading, finishLoading, handleResponse, hnf, hlen]

/-- C10 witness: both branches at concrete responses. -/
theorem submit_frame_effects_instance :
    ((submitHandler stInit inpValid (FetchResult.success respNF)).resultsGrid =
       stInit.resultsGrid ∧
     (submitHandler stInit inpValid (FetchResult.success respNF)).resultsTitle =
       stInit.resultsTitle) ∧
    (submitHandler stInit inpValid (FetchResult.success respRec)).suggestionsGrid =
      stInit.suggestionsGrid :=
  ⟨(submit_frame_effects_spec stInit inpValid respNF (by decide)).1 rfl,
   (submit_frame_effects_spec stInit inpValid respRec (by decide)).2 rfl (by decide)⟩

/-- A concatenation whose left part is non-empty is non-empty. -/
theorem append_ne_empty (a b : String) (h : a ≠ "") : a ++ b ≠ "" := by
  intro hab
  apply h
  apply String.ext
  have hd : (a ++ b).data = [] := by rw [hab]
  rw [String.data_append] at hd
  exact (List.append_eq_nil.mp hd).1

set_option maxRecDepth 8192 in
/-- C3 counterexample: `movieZero` carries `year = some 0` and
`rating = some 0` — both fields present — yet its card renders neither a year
badge nor a rating badge (no `fa-calendar` or `fa-star` badge anywhere in the
card). -/
theorem card_badges_presence_refuted :
    movieZero.year.isSome = true ∧ movieZero.rating.isSome = true ∧
    yearBadge movieZero = "" ∧ ratingBadge movieZero = "" ∧
    strContains (createCard movieZero).innerHTML "fa-calendar" = false ∧
    strContains (createCard movieZero).innerHTML "fa-star" = false :=
  ⟨rfl, rfl, rfl, rfl, by decide, by decide⟩

/-- C3 amended: the badges follow JavaScript truthiness — a year badge iff
`year` is present and non-zero, a rating badge iff `rating` is present and
non-zero, a similarity badge iff `similarity > 0`; a movie with similarity 0
gets no similarity badge, one with similarity 42 gets a metadata badge
containing `42%`. -/
theorem card_badges_truthy_spec (movie : Movie) :
    (yearBadge movie ≠ "" ↔ intTruthy movie.year = true) ∧
    (ratingBadge movie ≠ "" ↔ intTruthy movie.rating = true) ∧
    (similarityBadge movie ≠ "" ↔ ∃ s, movie.similarity = some s ∧ 0 < s) ∧
    (movie.similarity = some 0 → similarityBadge movie = "") ∧
    (movie.similarity = some 42 → strContains (cardMeta movie) "42%" = true) := by
  refine ⟨?_, ?_, ?_, ?_, ?_⟩
  · by_cases ht : intTruthy movie.year = true
    · simp only [yearBadge, ht, if_true, iff_true]
      exact append_ne_empty _ _ (append_ne_empty _ _ (by decide))
    · simp [yearBadge, ht]
  · by_cases ht : intTruthy movie.rating = true
    · simp only [ratingBadge, ht, if_true, iff_true]
      exact append_ne_empty _ _ (append_ne_empty _ _ (by decide))
    · simp [ratingBadge, ht]
  · cases hs : movie.similarity with
    | none => simp [similarityBadge, similarityGtZero, hs]
    | some s =>
      by_cases h0 : 0 < s
      · constructor
        · intro _
          exact ⟨s, rfl, h0⟩
        · intro _
          have hc : similarityGtZero movie = true := by
            simp [similarityGtZero, hs, h0]
          simp only [similarityBadge, hc, if_true]
          exact append_ne_empty _ _ (append_ne_empty _ _ (by decide))
      · simp [similarityBadge, similarityGtZero, hs, h0]
  · intro h
    simp [similarityBadge, similarityGtZero, h]
  · intro h
    apply strContains_append_left
    simp only [similarityBadge, similarityGtZero, jsIntStr, h]
    decide

/-- C3 witness: `movieA` has similarity 42 and its metadata badges contain
`42%`. -/
theorem card_badges_truthy_instance :
    movieA.similarity = some 42 ∧ strContains (cardMeta movieA) "42%" = true :=
  ⟨rfl, (card_badges_truthy_spec movieA).2.2.2.2 rfl⟩

set_option maxRecDepth 8192 in
/-- C7 counterexample: `movieZero` carries `rating = some 0` — present — yet
the modal renders exactly the same content as for the movie without a rating:
`N/A/10` is shown and the rating value `0/10` is not, so the modal does not
show the movie's rating and `N/A` is not confined to absent fields; moreover
the absent poster renders the literal text `undefined`, not a fallback. -/
theorem openModal_fallback_refuted :
    movieZero.rating = some 0 ∧
    (openModal movieZero).galleryHTML = (openModal movieZeroNoRating).galleryHTML ∧
    strContains (openModal movieZero).galleryHTML "0/10" = false ∧
    strContains (openModal movieZero).galleryHTML "N/A/10" = true ∧
    strContains (openModal movieZero).galleryHTML "src=\"undefined\"" = true :=
  ⟨rfl, rfl, by decide, by decide, by decide⟩

/-- C7 amended: `openModal` makes the modal visible and replaces its content
with the poster `src` (interpolated directly, rendering the literal text
`undefined` when absent), the title, and the rating / year / languages /
genres / plot lines, where rating, year, languages and genres fall back to
`N/A` and the overview to a placeholder string when the field is absent (or,
more generally, falsy). -/
theorem openModal_content_spec (movie : Movie) :
    (openModal movie).modalDisplay = "flex" ∧
    strContains (openModal movie).galleryHTML
      ("src=\"" ++ modalPosterSrc movie ++ "\"") = true ∧
    strContains (openModal movie).galleryHTML (modalTitleLine movie) = true ∧
    strContains (openModal movie).galleryHTML (modalRatingLine movie) = true ∧
    strContains (openModal movie).galleryHTML (modalYearLine movie) = true ∧
    strContains (openModal movie).galleryHTML (modalLanguagesLine movie) = true ∧
    strContains (openModal movie).galleryHTML (modalGenresLine movie) = true ∧
    strContains (openModal movie).galleryHTML (modalPlotLine movie) = true ∧
    (movie.rating = none → modalRatingText movie = "N/A") ∧
    (movie.year = none → modalYearText movie = "N/A") ∧
    (movie.languages = none → modalLanguagesText movie = "N/A") ∧
    (movie.genres = none → modalGenresText movie = "N/A") ∧
    (movie.overview = none → modalOverviewText movie = "No overview available.") ∧
    (movie.poster_url = none → modalPosterSrc movie = "undefined") := by
  refine ⟨rfl, ?_, ?_, ?_, ?_, ?_, ?_, ?_,
    fun h => by simp [modalRatingText, intTruthy, h],
    fun h => by simp [modalYearText, intTruthy, h],
    fun h => by simp [modalLanguagesText, strTruthy, h],
    fun h => by simp [modalGenresText, strTruthy, h],
    fun h => by simp [modalOverviewText, strTruthy, h],
    fun h => by simp [modalPosterSrc, jsStr, h]⟩
  · show strContains (modalGalleryHTML movie) _ = true
    unfold modalGalleryHTML
    iterate 15 apply strContains_append_right
    exact strContains_append_self _ _
  · show strContains (modalGalleryHTML movie) _ = true
    unfold modalGalleryHTML
    iterate 11 apply strContains_append_right
    exact strContains_append_self _ _
  · show strContains (modalGalleryHTML movie) _ = true
    unfold modalGalleryHTML
    iterate 9 apply strContains_append_right
    exact strContains_append_self _ _
  · show strContains (modalGalleryHTML movie) _ = true
    unfold modalGalleryHTML
    iterate 7 apply strContains_append_right
    exact strContains_append_self _ _
  · show strContains (modalGalleryHTML movie) _ = true
    unfold modalGalleryHTML
    iterate 5 apply strContains_append_right
    exact strContains_append_self _ _
  · show strContains (modalGalleryHTML movie) _ = true
    unfold modalGalleryHTML
    iterate 3 apply strContains_append_right
    exact strContains_append_self _ _
  · show strContains (modalGalleryHTML movie) _ = true
    unfold modalGalleryHTML
    apply strContains_append_right
    exact strContains_append_self _ _

/-- C7 witness: the all-absent movie `movieB` — every fallback fires and the
rating line occurs in the rendered modal, which is visible. -/
theorem openModal_content_instance :
    movieB.rating = none ∧ modalRatingText movieB = "N/A" ∧
    modalPosterSrc movieB = "undefined" ∧
    modalOverviewText movieB = "No overview available." ∧
    (openModal movieB).modalDisplay = "flex" ∧
    strContains (openModal movieB).galleryHTML (modalRatingLine movieB) = true := by
  obtain ⟨h1, h2, h3, h4, h5, h6, h7, h8, h9, h10, h11, h12, h13, h14⟩ :=
    openModal_content_spec movieB
  exact ⟨rfl, h9 rfl, h14 rfl, h13 rfl, h1, h4⟩

/-- C8 counterexample: in a search cycle begun by a valid submission, zero —
not exactly one — of the three result panels is visible while the loading
state is active, and still zero after a failed fetch ends the cycle. -/
theorem panels_exactly_one_refuted :
    jsTrim inpValid.movieInputValue ≠ "" ∧
    panelsVisibleCount stInit = 1 ∧
    panelsVisibleCount (enterLoading stInit) = 0 ∧
    panelsVisibleCount (submitHandler stInit inpValid FetchResult.failure) = 0 :=
  ⟨by decide, by decide, by decide, by decide⟩

/-- C8 amended: during a search cycle begun by a valid submission at most one
of the three result panels is visible — zero right after the loading state is
entered, and at most one when the handler finishes: exactly zero on the
failure path and on the empty-response path, exactly one on the not-found
render path and on the recommendations render path. -/
theorem panels_at_most_one_spec (st : PageState) (inp : SubmitInput)
    (h : jsTrim inp.movieInputValue ≠ "") :
    panelsVisibleCount (enterLoading st) = 0 ∧
    (∀ r : FetchResult, panelsVisibleCount (submitHandler st inp r) ≤ 1) ∧
    panelsVisibleCount (submitHandler st inp FetchResult.failure) = 0 ∧
    (∀ data : RecommendResponse, data.not_found = false →
      data.recommendations = [] →
      panelsVisibleCount (submitHandler st inp (FetchResult.success data)) = 0) ∧
    (∀ data : RecommendResponse, data.not_found = true →
      panelsVisibleCount (submitHandler st inp (FetchResult.success data)) = 1) ∧
    (∀ data : RecommendResponse, data.not_found = false →
      data.recommendations ≠ [] →
      panelsVisibleCount (submitHandler st inp (FetchResult.success data)) = 1) := by
  have hload : panelsVisibleCount (enterLoading st) = 0 := by
    cases hf : st.featuredDisplay <;>
      simp [enterLoading, panelsVisibleCount, hf]
  have hfail : panelsVisibleCount (submitHandler st inp FetchResult.failure) = 0 := by
    cases hf : st.featuredDisplay <;>
      simp [submitHandler, h, enterLoading, finishLoading, handleResponse,
        panelsVisibleCount, hf]
  have hempty : ∀ data : RecommendResponse, data.not_found = false →
      data.recommendations = [] →
      panelsVisibleCount (submitHandler st inp (FetchResult.success data)) = 0 := by
    intro data hnf hrec
    cases hf : st.featuredDisplay <;>
      simp [submitHandler, h, enterLoading, finishLoading, handleResponse,
        panelsVisibleCount, hf, hnf, hrec]
  have hnfound : ∀ data : RecommendResponse, data.not_found = true →
      panelsVisibleCount (submitHandler st inp (FetchResult.success data)) = 1 := by
    intro data hnf
    cases hf : st.featuredDisplay <;>
      simp [submitHandler, h, enterLoading, finishLoading, handleResponse,
        panelsVisibleCount, hf, hnf]
  have hrender : ∀ data : RecommendResponse, data.not_found = false →
      data.recommendations ≠ [] →
      panelsVisibleCount (submitHandler st inp (FetchResult.success data)) = 1 := by
    intro data hnf hrec
    have hlen : 0 < data.recommendations.length := List.length_pos.mpr hrec
    cases hf : st.featuredDisplay <;>
      simp [submitHandler, h, enterLoading, finishLoading, handleResponse,
        panelsVisibleCount, hf, hnf, hlen]
  refine ⟨hload, ?_, hfail, hempty, hnfound, hrender⟩
  intro r
  cases r with
  | failure => exact Nat.le_of_eq hfail |>.trans (Nat.zero_le 1)
  | success data =>
    by_cases hnf : data.not_found = true
    · exact Nat.le_of_eq (hnfound data hnf)
    · have hnf2 : data.not_found = false := by
        cases hb : data.not_found
        · rfl
        · exact absurd hb hnf
      by_cases hrec : data.recommendations = []
      · exact Nat.le_of_eq (hempty data hnf2 hrec) |>.trans (Nat.zero_le 1)
      · exact Nat.le_of_eq (hrender data hnf2 hrec)

/-- C8 witness: a valid submission: zero panels while loading, zero after a
failed fetch, and exactly one after a not-found render. -/
theorem panels_at_most_one_instance :
    jsTrim inpValid.movieInputValue ≠ "" ∧
    panelsVisibleCount (enterLoading stInit) = 0 ∧
    panelsVisibleCount (submitHandler stInit inpValid FetchResult.failure) = 0 ∧
    panelsVisibleCount (submitHandler stInit inpValid (FetchResult.success respNF)) = 1 ∧
    panelsVisibleCount (submitHandler stInit inpValid (FetchResult.success respRec)) = 1 :=
  ⟨by decide,
    (panels_at_most_one_spec stInit inpValid (by decide)).1,
    (panels_at_most_one_spec stInit inpValid (by decide)).2.2.1,
    (panels_at_most_one_spec stInit inpValid (by decide)).2.2.2.2.1 respNF rfl,
    (panels_at_most_one_spec stInit inpValid (by decide)).2.2.2.2.2 respRec rfl (by decide)⟩

/-- C6: the favorite button's `favorited` class membership flips exactly when
the fetch resolves, the body parses, and `success` is truthy; a `success:
false` body leaves the class list unchanged; a network or parse failure
leaves the class list unchanged, increments the console error log, and shows
no alert. -/
theorem toggleFav_spec (st : FavState) (movieId : Int)
    (title overview genres : String) (year rating : Int) (poster : String) :
    (∀ data : FavResponse, data.success = true →
      ("favorited" ∈ (toggleFav st movieId title overview genres year rating
          poster (FavFetchResult.success data)).btnClasses ↔
        "favorited" ∉ st.btnClasses)) ∧
    (∀ data : FavResponse, data.success = false →
      (toggleFav st movieId title overview genres year rating poster
          (FavFetchResult.success data)).btnClasses = st.btnClasses) ∧
    (toggleFav st movieId title overview genres year rating poster
        FavFetchResult.failure).btnClasses = st.btnClasses ∧
    (toggleFav st movieId title overview genres year rating poster
        FavFetchResult.failure).consoleErrorCount = st.consoleErrorCount + 1 ∧
    (toggleFav st movieId title overview genres year rating poster
        FavFetchResult.failure).alerts = st.alerts := by
  refine ⟨?_, ?_, rfl, rfl, rfl⟩
  · intro data hd
    simp [toggleFav, hd, mem_classListToggle]
  · intro data hd
    simp [toggleFav, hd]

/-- C6 witness: a `success: true` response flips the class on a button that
did not carry it; a failure leaves the alerts empty. -/
theorem toggleFav_instance :
    ("favorited" ∈ (toggleFav favInit 7 "Alpha" "o" "g" 2019 8 "p"
        (FavFetchResult.success { success := true })).btnClasses ↔
      "favorited" ∉ favInit.btnClasses) ∧
    (toggleFav favInit 7 "Alpha" "o" "g" 2019 8 "p"
        FavFetchResult.failure).alerts = favInit.alerts :=
  ⟨(toggleFav_spec favInit 7 "Alpha" "o" "g" 2019 8 "p").1
      { success := true } rfl,
   (toggleFav_spec favInit 7 "Alpha" "o" "g" 2019 8 "p").2.2.2.2⟩

/-- C9: after the scroll handler runs, the back-to-top button carries the
`visible` class iff the scroll position exceeds 300; in particular scrolling
0 → 301 shows it and 301 → 0 hides it. -/
theorem backToTop_visibility_spec (y : Nat) (classes : List String) :
    ("visible" ∈ scrollHandler y classes ↔ 300 < y) ∧
    "visible" ∈ scrollHandler 301 (scrollHandler 0 classes) ∧
    "visible" ∉ scrollHandler 0 (scrollHandler 301 classes) := by
  refine ⟨?_, ?_, ?_⟩
  · by_cases h : 300 < y
    · simp [scrollHandler, h, mem_classListAdd]
    · simp [scrollHandler, h, not_mem_classListRemove]
  · simp [scrollHandler, mem_classListAdd]
  · simp [scrollHandler, not_mem_classListRemove]

end CineMatch
